import Mathlib

/-!
Verification development for the yay-traynote tray notifier
(`src/yay-traynote.py`).  The Python source is shallowly embedded below:
pure fragments become Lean functions, stateful fragments become explicit
state-passing functions on record types, and the external environment
(presence of the `yay` tool, of terminal emulators, process exceptions)
is passed in as explicit data.  Floating-point arithmetic of the animation
is embedded over the ideal reals.
-/

/- ### Python string primitives

The checker's parser uses Python's `str.strip`, `str.split` and the
substring test `' -> ' in line`.  These are embedded as fuel-based
structural functions on `List Char` so that every concrete evaluation
reduces in the kernel.  `pyIsSpace` lists exactly the characters Python's
`str.strip` removes. -/

def pyIsSpace (c : Char) : Bool :=
  c == ' ' || c == '\t' || c == '\n' || c == '\r' || c == '\x0b' || c == '\x0c'

def pyStripChars (s : List Char) : List Char :=
  ((s.dropWhile pyIsSpace).reverse.dropWhile pyIsSpace).reverse

/-- Python `line.strip()`. -/
def pyStrip (s : String) : String :=
  String.mk (pyStripChars s.data)

def beginsWith : List Char → List Char → Bool
  | [], _ => true
  | _ :: _, [] => false
  | a :: as, b :: bs => a == b && beginsWith as bs

/-- Greedy left-to-right split on non-overlapping occurrences of `sep`,
with the fuel bounding the recursion depth by the input length. -/
def splitFuel (sep : List Char) : Nat → List Char → List Char → List (List Char)
  | 0, s, acc => [acc.reverse ++ s]
  | Nat.succ fuel, s, acc =>
      match s with
      | [] => [acc.reverse]
      | c :: rest =>
          if beginsWith sep s then
            acc.reverse :: splitFuel sep fuel (s.drop sep.length) []
          else
            splitFuel sep fuel rest (c :: acc)

/-- Python `s.split(sep)` for a non-empty separator. -/
def pySplit (s sep : String) : List String :=
  (splitFuel sep.data s.data.length s.data []).map String.mk

/- ### UpdateChecker (`UpdateChecker.run`, lines 125-164) -/

/-- One pending package update, as parsed from a `yay -Qu` output line. -/
structure UpdateRecord where
  name : String
  version : String
deriving DecidableEq

/-- Parsing of one output line (lines 151-156): a line is kept when its
strip is non-empty and it contains the separator `" -> "`; it is then
split on every occurrence of the separator and the first two fragments,
stripped, become the record.  Python's `' -> ' in line` test followed by
`len(package_info) >= 2` is exactly the `a :: b :: _` pattern below. -/
def parseLine (line : String) : Option UpdateRecord :=
  if pyStrip line ≠ "" then
    match pySplit line " -> " with
    | a :: b :: _ => some { name := pyStrip a, version := pyStrip b }
    | _ => none
  else none

/-- Parsing of the whole checker stdout (lines 147-156): strip it and
process each newline-separated line with `parseLine`. -/
def parseUpdates (stdout : String) : List UpdateRecord :=
  (pySplit (pyStrip stdout) "\n").filterMap parseLine

/-- The spec's abstraction of one check's observable outcome. -/
inductive CheckResult where
  | Found : List UpdateRecord → CheckResult
  | NoneFound : CheckResult
  | Failed : CheckResult
deriving DecidableEq

/-- Outcome of a successful (`returncode == 0`) `yay -Qu` query: the
`updates_found` signal carries the parsed records only when the list is
non-empty (lines 147-159); an empty list or empty output means no signal,
i.e. `NoneFound`. -/
def queryResult (stdout : String) : CheckResult :=
  match parseUpdates stdout with
  | [] => CheckResult.NoneFound
  | us => CheckResult.Found us

/-- External environment of one `UpdateChecker.run` invocation.
`whichFails` is `which yay` exiting non-zero (tool absent from the path);
`raisesException` is any `TimeoutExpired` / `CalledProcessError` /
`FileNotFoundError` raised inside the `try` body. -/
structure CheckEnv where
  whichFails : Bool
  raisesException : Bool
  queryReturncode : Int
  queryStdout : String

/-- The signals one `UpdateChecker.run` invocation emits. -/
structure CheckerOutcome where
  updatesEmitted : Option (List UpdateRecord)
  completedEmitted : Bool
deriving DecidableEq

/-- `UpdateChecker.run` (lines 125-164).  The `which yay` failure path
(lines 132-133) is a bare `return` inside the `try`, so it skips the
`check_completed.emit()` on line 164; a caught exception falls through
to the emit. -/
def checkerRun (env : CheckEnv) : CheckerOutcome :=
  if env.whichFails then { updatesEmitted := none, completedEmitted := false }
  else if env.raisesException then { updatesEmitted := none, completedEmitted := true }
  else if env.queryReturncode = 0 ∧ pyStrip env.queryStdout ≠ "" then
    match parseUpdates env.queryStdout with
    | [] => { updatesEmitted := none, completedEmitted := true }
    | us => { updatesEmitted := some us, completedEmitted := true }
  else { updatesEmitted := none, completedEmitted := true }

/- ### NotifierController state machine (`UpdateNotifier`) -/

/-- `self.icon_state` (line 197): `'idle'`, `'updates_available'`,
`'checking'`. -/
inductive IconState where
  | idle : IconState
  | updatesAvailable : IconState
  | checking : IconState
deriving DecidableEq

/-- The controller-visible state of the notifier: the flags and fields of
`UpdateNotifier` that the claims are about, plus `checkerRunning`
(the `QThread.isRunning()` observation), `lastCheck` (the persisted
`last_check` setting, abstracted to an opaque timestamp) and
`checkerStartCount` (number of `update_checker.start()` dispatches). -/
structure NotifierState where
  updatesAvailable : Bool
  yayRunning : Bool
  iconState : IconState
  flashTimerActive : Bool
  checkerRunning : Bool
  flashTime : ℚ
  flashCycleDuration : ℚ
  tooltip : String
  lastCheck : Option Nat
  checkerStartCount : Nat

/-- `check_for_updates` (lines 406-417): a no-op while the checker thread
is running; otherwise resets the cycle state, starts the flash timer and
dispatches the checker. -/
def check_for_updates (s : NotifierState) : NotifierState :=
  if s.checkerRunning then s
  else
    { s with
      updatesAvailable := false
      iconState := IconState.checking
      flashTime := 0
      flashTimerActive := true
      tooltip := "YAY Update Notifier - Checking for updates..."
      checkerRunning := true
      checkerStartCount := s.checkerStartCount + 1 }

/-- `on_updates_found` (lines 478-494), handling the `updates_found`
signal; `now` abstracts `datetime.now()`. -/
def on_updates_found (updates : List UpdateRecord) (now : Nat) (s : NotifierState) :
    NotifierState :=
  { s with
    updatesAvailable := true
    iconState := IconState.updatesAvailable
    tooltip := "YAY Update Notifier - " ++ toString updates.length ++ " updates available"
    flashTime := 0
    flashTimerActive := true
    lastCheck := some now }

/-- `on_check_completed` (lines 496-505), handling the `check_completed`
signal. -/
def on_check_completed (now : Nat) (s : NotifierState) : NotifierState :=
  let s1 :=
    if s.updatesAvailable then s
    else
      { s with
        iconState := IconState.idle
        tooltip := "YAY Update Notifier - No updates available" }
  { s1 with lastCheck := some now }

/-- `clear_updates` (lines 320-324): forces the idle state but does not
touch the flash timer. -/
def clear_updates (s : NotifierState) : NotifierState :=
  { s with
    updatesAvailable := false
    iconState := IconState.idle
    tooltip := "YAY Update Notifier - Alert cleared" }

/-- The state-mutating part of `update_gradient_flash` (lines 419-446):
in the idle state the timer stops; otherwise the phase advances by 0.05s,
the cycle duration is chosen from the state (`FLASH_CYCLE_SLOW = 3.0`,
`FLASH_CYCLE_FAST = 0.8`) and the phase wraps to 0 when it reaches the
cycle duration. -/
def update_gradient_flash (s : NotifierState) : NotifierState :=
  if s.iconState = IconState.idle then
    { s with flashTimerActive := false }
  else
    let t := s.flashTime + 1 / 20
    let cyc :=
      match s.iconState with
      | IconState.updatesAvailable => (3 : ℚ)
      | IconState.checking => 4 / 5
      | IconState.idle => s.flashCycleDuration
    let t2 := if cyc ≤ t then 0 else t
    { s with flashTime := t2, flashCycleDuration := cyc }

/-- The notifier's fields as set by `__init__` (lines 169-208) just before
the initial `check_for_updates()` call on line 210. -/
def initBase : NotifierState :=
  { updatesAvailable := false
    yayRunning := false
    iconState := IconState.idle
    flashTimerActive := false
    checkerRunning := false
    flashTime := 0
    flashCycleDuration := 3
    tooltip := "Yay Update Notifier"
    lastCheck := none
    checkerStartCount := 0 }

/-- The notifier's state after `__init__` completes (the constructor ends
with `self.check_for_updates()`). -/
def initState : NotifierState :=
  check_for_updates initBase

/-- States reachable from startup through the controller's operations. -/
inductive Reachable : NotifierState → Prop
  | init : Reachable initState
  | check {s} : Reachable s → Reachable (check_for_updates s)
  | found {s} (us : List UpdateRecord) (now : Nat) :
      Reachable s → Reachable (on_updates_found us now s)
  | completed {s} (now : Nat) :
      Reachable s → Reachable (on_check_completed now s)
  | clear {s} : Reachable s → Reachable (clear_updates s)
  | tick {s} : Reachable s → Reachable (update_gradient_flash s)

/-- Net effect of one full check cycle on the controller: the worker
thread retires (so `isRunning()` turns false), then whichever signals
`checkerRun` emitted are handled in emission order. -/
def cycleEffect (env : CheckEnv) (now : Nat) (s : NotifierState) : NotifierState :=
  let o := checkerRun env
  let s1 := { s with checkerRunning := false }
  let s2 :=
    match o.updatesEmitted with
    | some us => on_updates_found us now s1
    | none => s1
  if o.completedEmitted then on_check_completed now s2 else s2

/- ### FlashAnimator brightness (lines 441-446) -/

/-- The brightness formula of `update_gradient_flash` (lines 443-446):
`brightness_offset + brightness_range * (sin(2π·t/cycle) + 1) / 2` with
offset and range both 0.5, over the ideal reals. -/
noncomputable def brightnessOf (cycle t : ℝ) : ℝ :=
  1 / 2 + 1 / 2 * ((Real.sin (2 * Real.pi * t / cycle) + 1) / 2)

/-- The brightness factor one `update_gradient_flash` tick assigns: 1.0 in
the idle branch (line 424), otherwise the sine formula evaluated at the
post-wrap phase and the newly selected cycle duration. -/
noncomputable def tickBrightness (s : NotifierState) : ℝ :=
  if s.iconState = IconState.idle then 1
  else
    brightnessOf ((update_gradient_flash s).flashCycleDuration : ℝ)
      ((update_gradient_flash s).flashTime : ℝ)

/- ### Icon rendering and cache (`apply_brightness`, lines 452-476) -/

/-- Icons, with identity made explicit: `base` is `self.default_icon`;
`rendered id alpha` is a fresh `QIcon` produced by the render step, where
`id` is a globally fresh instance identity and `alpha` the composited
`int(255 * factor)` value. -/
inductive Icon where
  | base : Icon
  | rendered : Nat → ℤ → Icon
deriving DecidableEq

/-- `int(255 * factor)` for the non-negative factors in use. -/
def alphaOf (factor : ℚ) : ℤ :=
  ⌊(255 : ℚ) * factor⌋

/-- `round(factor, 3)` as an integer count of thousandths. -/
def quantKey (factor : ℚ) : ℤ :=
  round (factor * 1000)

/-- `self.icon_cache` plus a fresh-identity counter for rendered icons. -/
structure IconCacheState where
  cache : List (ℤ × Icon)
  nextId : Nat
deriving DecidableEq

/-- `apply_brightness` (lines 452-476): factors ≥ 1.0 return the argument
icon unchanged; otherwise the factor is quantized, the cache consulted,
and on a miss a freshly rendered icon is inserted under the quantized
key. -/
def apply_brightness (st : IconCacheState) (icon : Icon) (factor : ℚ) :
    Icon × IconCacheState :=
  if 1 ≤ factor then (icon, st)
  else
    let key := quantKey factor
    match st.cache.lookup key with
    | some cached => (cached, st)
    | none =>
        let newIcon := Icon.rendered st.nextId (alphaOf factor)
        (newIcon, { cache := (key, newIcon) :: st.cache, nextId := st.nextId + 1 })

/- ### SingleInstance (`__enter__`, lines 40-58) and the main gate -/

/-- The lock file as seen on disk, plus whether another live process
holds the advisory lock. -/
structure LockState where
  content : String
  heldByOther : Bool
deriving DecidableEq

/-- `SingleInstance.__enter__` (lines 40-58): `open(path, 'w')` truncates
the lock file unconditionally; only then is the non-blocking exclusive
`lockf` attempted.  When another process holds the lock, `lockf` raises,
the handler closes the file and returns `False`; on success the pid is
written. -/
def singleInstanceEnter (pid : Nat) (st : LockState) : Bool × LockState :=
  let truncated : LockState := { st with content := "" }
  if st.heldByOther then (false, truncated)
  else (true, { truncated with content := toString pid, heldByOther := true })

/-- The guard in `main` (lines 524-527): on acquisition failure the
process prints the message and exits with status 1; `none` means startup
proceeds. -/
def mainExit (acquired : Bool) : Option (Nat × String) :=
  if acquired then none
  else some (1, "YAY Update Notifier is already running.")

/- ### run_yay_terminal (lines 326-399) -/

/-- Which terminal emulators are on the path, and whether the launch
block raises an exception other than `FileNotFoundError`. -/
structure TermEnv where
  gnomeTerminalPresent : Bool
  konsolePresent : Bool
  xtermPresent : Bool
  popenOtherError : Bool

/-- Observable outcome of one `run_yay_terminal` call. -/
structure YayLaunchResult where
  yayRunning : Bool
  alreadyRunningDialog : Bool
  terminalNotFoundDialog : Bool
  genericErrorDialog : Bool
  launchedTerminal : Option String
deriving DecidableEq

/-- `run_yay_terminal` (lines 326-399).  An active session short-circuits
with the informational dialog.  Otherwise `yay_running` is set before the
first `Popen`; a non-`FileNotFoundError` exception reaches the outer
handler which resets the flag (line 398); the `FileNotFoundError` cascade
gnome-terminal → konsole → xterm ends, when all three are absent, in the
warning dialog of lines 394-396, which does not reset the flag. -/
def run_yay_terminal (env : TermEnv) (yayRunning : Bool) : YayLaunchResult :=
  if yayRunning then
    { yayRunning := true, alreadyRunningDialog := true, terminalNotFoundDialog := false
      genericErrorDialog := false, launchedTerminal := none }
  else if env.popenOtherError then
    { yayRunning := false, alreadyRunningDialog := false, terminalNotFoundDialog := false
      genericErrorDialog := true, launchedTerminal := none }
  else if env.gnomeTerminalPresent then
    { yayRunning := true, alreadyRunningDialog := false, terminalNotFoundDialog := false
      genericErrorDialog := false, launchedTerminal := some "gnome-terminal" }
  else if env.konsolePresent then
    { yayRunning := true, alreadyRunningDialog := false, terminalNotFoundDialog := false
      genericErrorDialog := false, launchedTerminal := some "konsole" }
  else if env.xtermPresent then
    { yayRunning := true, alreadyRunningDialog := false, terminalNotFoundDialog := false
      genericErrorDialog := false, launchedTerminal := some "xterm" }
  else
    { yayRunning := true, alreadyRunningDialog := false, terminalNotFoundDialog := true
      genericErrorDialog := false, launchedTerminal := none }

/- ### Check-interval menu (`setup_menu` lines 280-285,
`set_check_interval` lines 301-318) -/

/-- One interval `QAction`: label, checkable flag, checkmark, and the
`QAction.data()` payload (a null variant unless `setData` was called). -/
structure MenuAction where
  label : String
  checkable : Bool
  checked : Bool
  data : Option Int
deriving DecidableEq

/-- The interval table of `setup_menu` (lines 269-276). -/
def intervals : List (String × Int) :=
  [("30 minutes", 1800), ("1 hour", 3600), ("2 hours", 7200),
   ("6 hours", 21600), ("12 hours", 43200), ("Daily", 86400)]

/-- The interval submenu as `setup_menu` builds it (lines 280-285):
each action is checkable, checked iff its seconds equal the current
interval, and `setData` is never called, so `data` stays `none`. -/
def setup_interval_menu (currentInterval : Int) : List MenuAction :=
  intervals.map fun li =>
    { label := li.1, checkable := true, checked := li.2 == currentInterval, data := none }

/-- The second loop of `set_check_interval` (lines 315-318): check the
first action whose `data()` equals the chosen seconds, then stop. -/
def checkFirstMatching : List MenuAction → Int → List MenuAction
  | [], _ => []
  | a :: rest, seconds =>
      if a.data = some seconds then { a with checked := true } :: rest
      else a :: checkFirstMatching rest seconds

/-- The two checkmark loops of `set_check_interval` (lines 311-318 only):
uncheck every action, then re-check the one whose data matches.  Whether
the handler ever reaches these loops is decided by the submenu navigation
of lines 307-309, modelled separately below on the full menu tree. -/
def set_check_interval_menu (actions : List MenuAction) (seconds : Int) :
    List MenuAction :=
  checkFirstMatching (actions.map fun a => { a with checked := false }) seconds

/-- A `QMenu` entry as `QAction.menu()` sees it: a plain action, a
separator, or a submenu (whose `menuAction` carries the nested menu). -/
inductive MenuNode where
  | act : MenuAction → MenuNode
  | sep : MenuNode
  | sub : String → List MenuNode → MenuNode

/-- `QAction.menu()`: the nested menu's entries for a submenu action,
`none` (Python `None`) for plain actions and separators. -/
def nodeMenu : MenuNode → Option (List MenuNode)
  | MenuNode.sub _ entries => some entries
  | _ => none

/-- The full context menu `setup_menu` builds (lines 247-299), in
insertion order: check-now (index 0), run-yay (1), a separator (2), the
Settings submenu (3) — holding the Check Interval submenu (index 0 inside
Settings) and the clear-alert action — another separator (4), and About
(5). -/
def setup_context_menu (currentInterval : Int) : List MenuNode :=
  [MenuNode.act { label := "Check for Updates Now", checkable := false,
                  checked := false, data := none },
   MenuNode.act { label := "Run YAY Updates", checkable := false,
                  checked := false, data := none },
   MenuNode.sep,
   MenuNode.sub "Settings"
     [MenuNode.sub "Check Interval"
        ((setup_interval_menu currentInterval).map MenuNode.act),
      MenuNode.act { label := "Clear Update Alert", checkable := false,
                     checked := false, data := none }],
   MenuNode.sep,
   MenuNode.act { label := "About", checkable := false,
                  checked := false, data := none }]

/-- The second loop of lines 315-318 lifted to menu entries: re-check
the first action whose `data()` equals the chosen seconds. -/
def checkFirstMatchingNode : List MenuNode → Int → List MenuNode
  | [], _ => []
  | MenuNode.act a :: rest, seconds =>
      if a.data = some seconds then MenuNode.act { a with checked := true } :: rest
      else MenuNode.act a :: checkFirstMatchingNode rest seconds
  | n :: rest, seconds => n :: checkFirstMatchingNode rest seconds

/-- The checkmark loops of lines 311-318 lifted to menu entries. -/
def updateIntervalNodes (nodes : List MenuNode) (seconds : Int) : List MenuNode :=
  checkFirstMatchingNode
    (nodes.map fun n =>
      match n with
      | MenuNode.act a => MenuNode.act { a with checked := false }
      | other => other)
    seconds

/-- Observable outcome of one `set_check_interval` call. -/
structure SetIntervalOutcome where
  persistedInterval : Int
  timerRestarted : Bool
  raisedAttributeError : Bool
  menuAfter : List MenuNode

/-- `set_check_interval` (lines 301-318) in full.  The setting is
persisted and the periodic timer restarted (lines 303-304) before the
menu is touched.  Then line 308 takes `menu.actions()[2].menu()` and line
309 calls `.actions()` on the result, so unless entry 2 of the context
menu is a submenu whose entry 0 is again a submenu, the handler raises
`AttributeError` (calling `.actions()` on `None`) and the menu is left
exactly as it was; only when both lookups yield submenus do the checkmark
loops of lines 311-318 run, on that inner menu's entries. -/
def set_check_interval (menu : List MenuNode) (seconds : Int) : SetIntervalOutcome :=
  match menu.get? 2 with
  | some (MenuNode.sub settingsLabel settingsEntries) =>
      match settingsEntries.get? 0 with
      | some (MenuNode.sub intervalLabel intervalEntries) =>
          { persistedInterval := seconds
            timerRestarted := true
            raisedAttributeError := false
            menuAfter :=
              menu.set 2 (MenuNode.sub settingsLabel
                (settingsEntries.set 0 (MenuNode.sub intervalLabel
                  (updateIntervalNodes intervalEntries seconds)))) }
      | _ =>
          { persistedInterval := seconds, timerRestarted := true
            raisedAttributeError := true, menuAfter := menu }
  | _ =>
      { persistedInterval := seconds, timerRestarted := true
        raisedAttributeError := true, menuAfter := menu }

/-- The check-interval entries of a context menu, found where `setup_menu`
actually puts them: inside the submenu at index 3 (Settings), at its
index 0 (Check Interval). -/
def intervalActionsOf (menu : List MenuNode) : Option (List MenuNode) :=
  ((menu.get? 3).bind nodeMenu).bind fun settingsEntries =>
    (settingsEntries.get? 0).bind nodeMenu

/-- Whether a menu entry is a checked action. -/
def nodeChecked : MenuNode → Bool
  | MenuNode.act a => a.checked
  | _ => false

/- ### Helper lemmas -/

theorem brightnessOf_mem_Icc (cycle t : ℝ) :
    1 / 2 ≤ brightnessOf cycle t ∧ brightnessOf cycle t ≤ 1 := by
  have h1 := Real.neg_one_le_sin (2 * Real.pi * t / cycle)
  have h2 := Real.sin_le_one (2 * Real.pi * t / cycle)
  constructor <;> · rw [brightnessOf]; linarith

theorem lookup_none_not_mem_keys {β : Type} (l : List (ℤ × β)) (k : ℤ)
    (h : l.lookup k = none) : k ∉ l.map Prod.fst := by
  induction l with
  | nil => simp
  | cons p rest ih =>
      simp only [List.lookup] at h
      by_cases hk : k == p.1
      · rw [hk] at h
        simp at h
      · rw [Bool.of_not_eq_true hk] at h
        simp only [List.map_cons, List.mem_cons]
        rintro (he | hm)
        · exact hk (by simp [he])
        · exact ih h hm

/- ### Claims -/

/-- Claim C2 counterexample: the tick's brightness formula at phase 0
yields 0.75, not the claimed 1.0 (with the slow cycle duration 3.0 of the
source, also the initial value of `flash_cycle_duration`). -/
theorem c2_phase_zero_counterexample :
    brightnessOf 3 0 = 3 / 4 ∧ brightnessOf 3 0 ≠ 1 := by
  have h : brightnessOf 3 0 = 3 / 4 := by
    simp [brightnessOf]
    norm_num
  refine ⟨h, ?_⟩
  rw [h]
  norm_num

/-- Claim C2 (amended): at animation phase 0 the brightness computed by
the tick's formula equals 0.75 for every cycle duration; the maximum 1.0
is attained a quarter-cycle in (shown for the slow cycle 3.0 at phase
0.75). -/
theorem c2_brightness_at_phase_zero :
    (∀ cycle : ℝ, brightnessOf cycle 0 = 3 / 4) ∧ brightnessOf 3 (3 / 4) = 1 := by
  constructor
  · intro cycle
    simp [brightnessOf]
    norm_num
  · have h : (2 : ℝ) * Real.pi * (3 / 4) / 3 = Real.pi / 2 := by ring
    rw [brightnessOf, h, Real.sin_pi_div_two]
    norm_num

/-- Claim C8: for every controller state, the brightness assigned by one
animator tick (hence at every phase the tick can reach) lies in the
closed interval [0.5, 1.0]. -/
theorem c8_brightness_bounds (s : NotifierState) :
    1 / 2 ≤ tickBrightness s ∧ tickBrightness s ≤ 1 := by
  unfold tickBrightness
  split
  · norm_num
  · exact brightnessOf_mem_Icc _ _

/-- Claim C7 counterexample: a line with two arrow separators does not
match `<name> -> <version>` with exactly one separator, so the claim says
it is skipped; the code instead keeps the first two fragments. -/
theorem c7_multi_arrow_counterexample :
    parseUpdates "a -> b -> c" = [{ name := "a", version := "b" }] ∧
      parseUpdates "a -> b -> c" ≠ [] := by
  constructor
  · decide
  · decide

/-- Claim C7 (amended): the parser maps each line whose strip is
non-empty and that contains at least one `" -> "` separator to an
UpdateRecord built from the first two separator-delimited fragments
(whitespace-stripped); only blank lines and lines without the separator
are skipped; the concrete example parses as claimed and empty output
yields `NoneFound`. -/
theorem c7_parser_amended :
    (∀ line : String, pyStrip line = "" → parseLine line = none)
    ∧ (∀ line : String, (pySplit line " -> ").length = 1 → parseLine line = none)
    ∧ (∀ (line a b : String) (rest : List String), pyStrip line ≠ "" →
        pySplit line " -> " = a :: b :: rest →
        parseLine line = some { name := pyStrip a, version := pyStrip b })
    ∧ parseUpdates "foo 1.0-1 -> 1.1-1\nbar 2.0 -> 2.1\n" =
        [{ name := "foo 1.0-1", version := "1.1-1" },
         { name := "bar 2.0", version := "2.1" }]
    ∧ queryResult "" = CheckResult.NoneFound := by
  refine ⟨?_, ?_, ?_, by decide, by decide⟩
  · intro line h
    rw [parseLine, if_neg]
    simp [h]
  · intro line h
    obtain ⟨x, hx⟩ := List.length_eq_one.mp h
    rw [parseLine, hx]
    split <;> rfl
  · intro line a b rest hne hsplit
    rw [parseLine, if_pos hne, hsplit]

/-- Claim C7 witness: the amended parser behavior instantiated at blank,
separator-free and well-formed concrete lines. -/
theorem c7_parser_amended_witness :
    parseLine " " = none ∧ parseLine "kernel" = none ∧
      parseLine "linux 6.9-1 -> 6.10-1" =
        some { name := "linux 6.9-1", version := "6.10-1" } :=
  ⟨c7_parser_amended.1 " " (by decide),
   c7_parser_amended.2.1 "kernel" (by decide),
   c7_parser_amended.2.2.1 "linux 6.9-1 -> 6.10-1" "linux 6.9-1" "6.10-1" []
     (by decide) (by decide)⟩

/-- Claim C1 (code bug exhibited): when the external update tool is
absent from the path (`which yay` exits non-zero), `UpdateChecker.run`
returns from inside the `try` without ever emitting `check_completed`, so
`on_check_completed` never runs: the whole cycle leaves the controller in
the `Checking` state with the checking tooltip and persists no timestamp
— only the thread's `isRunning()` flag clears.  A `Failed` cycle caused
by a caught exception does emit the completion signal, showing the
absent-tool path is the odd one out. -/
theorem c1_tool_absent_cycle_never_completes :
    (checkerRun { whichFails := true, raisesException := false,
                  queryReturncode := 0, queryStdout := "" }).completedEmitted = false
    ∧ (checkerRun { whichFails := true, raisesException := false,
                    queryReturncode := 0, queryStdout := "" }).updatesEmitted = none
    ∧ cycleEffect { whichFails := true, raisesException := false,
                    queryReturncode := 0, queryStdout := "" } 42 initState
        = { initState with checkerRunning := false }
    ∧ initState.iconState = IconState.checking
    ∧ initState.lastCheck = none
    ∧ (checkerRun { whichFails := false, raisesException := true,
                    queryReturncode := 0, queryStdout := "" }).completedEmitted = true :=
  ⟨rfl, rfl, rfl, rfl, rfl, rfl⟩

/-- Claim C4 counterexample: with the advisory lock held by a live owner
whose pid "123" is in the lock file, a failing `acquire` still truncates
the file (it is opened with mode `'w'` before `lockf` is attempted), so
the owner's pid is erased — the claimed absence of side effects fails. -/
theorem c4_lock_truncation_counterexample :
    (singleInstanceEnter 999 { content := "123", heldByOther := true }).1 = false
    ∧ (singleInstanceEnter 999 { content := "123", heldByOther := true }).2.content = ""
    ∧ (singleInstanceEnter 999 { content := "123", heldByOther := true }).2.content ≠ "123" :=
  ⟨rfl, rfl, by decide⟩

/-- Claim C4 (amended): when the lock is already held, `acquire` returns
false and the caller exits with status 1 and the already-running message,
and the advisory lock itself stays with its owner — but the acquisition
is not side-effect free: opening the lock file in write mode truncates
it, leaving it empty instead of holding the owner's pid. -/
theorem c4_acquire_failure_behavior (pid : Nat) (st : LockState)
    (h : st.heldByOther = true) :
    (singleInstanceEnter pid st).1 = false
    ∧ (singleInstanceEnter pid st).2.content = ""
    ∧ (singleInstanceEnter pid st).2.heldByOther = true
    ∧ mainExit (singleInstanceEnter pid st).1
        = some (1, "YAY Update Notifier is already running.") := by
  simp [singleInstanceEnter, mainExit, h]

/-- Claim C4 witness: the amended behavior at a concrete held lock. -/
theorem c4_acquire_failure_behavior_witness :
    (singleInstanceEnter 7 { content := "42", heldByOther := true }).1 = false
    ∧ (singleInstanceEnter 7 { content := "42", heldByOther := true }).2.content = ""
    ∧ (singleInstanceEnter 7 { content := "42", heldByOther := true }).2.heldByOther = true
    ∧ mainExit (singleInstanceEnter 7 { content := "42", heldByOther := true }).1
        = some (1, "YAY Update Notifier is already running.") :=
  c4_acquire_failure_behavior 7 { content := "42", heldByOther := true } rfl

/-- Claim C5 (code bug exhibited): with no session running and all three
terminal emulators absent, `run_yay_terminal` surfaces the
terminal-not-found warning but leaves `yay_running` set (the nested
`FileNotFoundError` handlers never reset it; only the generic exception
handler does), so a subsequent call is rejected with the already-running
dialog and launches nothing even when terminals have become available. -/
theorem c5_all_terminals_fail_flag_left_set :
    (run_yay_terminal
      { gnomeTerminalPresent := false, konsolePresent := false,
        xtermPresent := false, popenOtherError := false } false).terminalNotFoundDialog = true
    ∧ (run_yay_terminal
        { gnomeTerminalPresent := false, konsolePresent := false,
          xtermPresent := false, popenOtherError := false } false).yayRunning = true
    ∧ (run_yay_terminal
        { gnomeTerminalPresent := true, konsolePresent := true,
          xtermPresent := true, popenOtherError := false }
        (run_yay_terminal
          { gnomeTerminalPresent := false, konsolePresent := false,
            xtermPresent := false, popenOtherError := false } false).yayRunning).alreadyRunningDialog
        = true
    ∧ (run_yay_terminal
        { gnomeTerminalPresent := true, konsolePresent := true,
          xtermPresent := true, popenOtherError := false }
        (run_yay_terminal
          { gnomeTerminalPresent := false, konsolePresent := false,
            xtermPresent := false, popenOtherError := false } false).yayRunning).launchedTerminal
        = none :=
  ⟨rfl, rfl, rfl, rfl⟩

/-- Claim C6: at most one checker invocation is in flight — a
`check_for_updates` call while the checker thread runs is a no-op (not
queued), and two rapid successive calls from a quiescent state dispatch
the checker exactly once. -/
theorem c6_single_checker_in_flight :
    (∀ s : NotifierState, s.checkerRunning = true → check_for_updates s = s)
    ∧ (∀ s : NotifierState, s.checkerRunning = false →
        (check_for_updates s).checkerRunning = true
        ∧ check_for_updates (check_for_updates s) = check_for_updates s
        ∧ (check_for_updates (check_for_updates s)).checkerStartCount
            = s.checkerStartCount + 1) := by
  constructor
  · intro s h
    rw [check_for_updates, if_pos h]
  · intro s h
    refine ⟨?_, ?_, ?_⟩ <;> simp [check_for_updates, h]

/-- Claim C6 witness: the no-op at the post-startup state (whose checker
is running) and the exactly-once dispatch from the pre-dispatch state. -/
theorem c6_single_checker_in_flight_witness :
    check_for_updates initState = initState
    ∧ ((check_for_updates initBase).checkerRunning = true
       ∧ check_for_updates (check_for_updates initBase) = check_for_updates initBase
       ∧ (check_for_updates (check_for_updates initBase)).checkerStartCount
           = initBase.checkerStartCount + 1) :=
  ⟨c6_single_checker_in_flight.1 initState rfl,
   c6_single_checker_in_flight.2 initBase rfl⟩

/-- Claim C10 counterexample: on the menu `setup_menu` builds with the
default startup interval 3600, `set_check_interval(1800)` raises
`AttributeError` at the submenu navigation — entry 2 of the context menu
is the separator, not the Settings submenu — so the checkmark loops never
run, the menu is left exactly as built, and the "1 hour" entry is still
checked: not every entry is left unchecked. -/
theorem c10_attribute_error_counterexample :
    (set_check_interval (setup_context_menu 3600) 1800).raisedAttributeError = true
    ∧ (set_check_interval (setup_context_menu 3600) 1800).menuAfter
        = setup_context_menu 3600
    ∧ (((intervalActionsOf
          (set_check_interval (setup_context_menu 3600) 1800).menuAfter).getD []).any
        nodeChecked) = true :=
  ⟨rfl, rfl, by decide⟩

/-- Claim C10 (amended): `set_check_interval` persists the chosen
interval and restarts the periodic timer, but then crashes with
`AttributeError`: `menu.actions()[2]` is the separator (the Settings
submenu sits at index 3), its `.menu()` is `None`, and line 309 calls
`.actions()` on it — so the uncheck/re-check loops never run and every
interval entry keeps its prior checked state, whatever the current and
chosen intervals.  Had the loops been reached, they would indeed have
left every entry unchecked, since no data value is ever assigned to the
interval actions. -/
theorem c10_set_interval_crashes_menu_unchanged :
    (∀ currentInterval chosen : Int,
        (set_check_interval (setup_context_menu currentInterval) chosen).raisedAttributeError
            = true
        ∧ (set_check_interval (setup_context_menu currentInterval) chosen).menuAfter
            = setup_context_menu currentInterval
        ∧ (set_check_interval (setup_context_menu currentInterval) chosen).persistedInterval
            = chosen
        ∧ (set_check_interval (setup_context_menu currentInterval) chosen).timerRestarted
            = true)
    ∧ (∀ currentInterval chosen : Int,
        ((set_check_interval_menu (setup_interval_menu currentInterval) chosen).all
          fun a => !a.checked) = true) := by
  constructor
  · intro currentInterval chosen
    exact ⟨rfl, rfl, rfl, rfl⟩
  · intro currentInterval chosen
    simp [set_check_interval_menu, setup_interval_menu, intervals, checkFirstMatching]

/-- Claim C3 counterexample: `clear_updates`, invoked from the reachable
post-startup state (whose flash timer is running), sets Status to Idle
but leaves the flash timer active — the tick loop keeps running until its
next tick — so "Idle iff tick loop inactive" fails at that instant. -/
theorem c3_idle_with_timer_running_counterexample :
    Reachable (clear_updates initState)
    ∧ (clear_updates initState).iconState = IconState.idle
    ∧ (clear_updates initState).flashTimerActive = true :=
  ⟨Reachable.clear Reachable.init, rfl, rfl⟩

theorem flash_inv_check_for_updates (s : NotifierState)
    (ih : s.iconState ≠ IconState.idle → s.flashTimerActive = true) :
    (check_for_updates s).iconState ≠ IconState.idle →
      (check_for_updates s).flashTimerActive = true := by
  rw [check_for_updates]
  split
  · exact ih
  · intro _
    rfl

theorem flash_inv_on_check_completed (now : Nat) (s : NotifierState)
    (ih : s.iconState ≠ IconState.idle → s.flashTimerActive = true) :
    (on_check_completed now s).iconState ≠ IconState.idle →
      (on_check_completed now s).flashTimerActive = true := by
  by_cases h : s.updatesAvailable
  · simpa [on_check_completed, h] using ih
  · simp [on_check_completed, h]

theorem flash_inv_update_gradient_flash (s : NotifierState)
    (ih : s.iconState ≠ IconState.idle → s.flashTimerActive = true) :
    (update_gradient_flash s).iconState ≠ IconState.idle →
      (update_gradient_flash s).flashTimerActive = true := by
  by_cases h : s.iconState = IconState.idle
  · simp [update_gradient_flash, h]
  · simpa [update_gradient_flash, h] using ih

/-- Claim C3 (amended): in every reachable state, a non-Idle Status
implies the tick loop is running; the converse direction holds only up to
the next tick — an operation that sets Status to Idle leaves the timer
running momentarily, and the next tick of the animator, seeing Idle,
stops the loop. -/
theorem c3_nonidle_implies_timer_active :
    (∀ s : NotifierState, Reachable s →
        s.iconState ≠ IconState.idle → s.flashTimerActive = true)
    ∧ (∀ s : NotifierState, s.iconState = IconState.idle →
        (update_gradient_flash s).flashTimerActive = false) := by
  constructor
  · intro s hs
    induction hs with
    | init => intro _; rfl
    | check _ ih => exact flash_inv_check_for_updates _ ih
    | found us now _ ih => intro _; rfl
    | completed now _ ih => exact flash_inv_on_check_completed now _ ih
    | clear _ ih => intro h; simp [clear_updates] at h
    | tick _ ih => exact flash_inv_update_gradient_flash _ ih
  · intro s h
    simp [update_gradient_flash, h]

/-- Claim C3 witness: the invariant at the reachable startup state, and
the tick stopping the timer in a concrete Idle state. -/
theorem c3_nonidle_implies_timer_active_witness :
    initState.flashTimerActive = true
    ∧ (update_gradient_flash (clear_updates initState)).flashTimerActive = false :=
  ⟨c3_nonidle_implies_timer_active.1 initState Reachable.init (by decide),
   c3_nonidle_implies_timer_active.2 (clear_updates initState) rfl⟩

/-- Claim C9: `apply_brightness` returns the base icon unchanged (with
an untouched cache) for every factor ≥ 1.0; below 1.0, two successive
calls whose factors quantize to the same key return the identical cached
icon with no fresh render (the second call returns exactly the first
call's icon and state); and the cache keeps at most one entry per
quantized key. -/
theorem c9_apply_brightness_cache :
    (∀ (st : IconCacheState) (icon : Icon) (f : ℚ), 1 ≤ f →
        apply_brightness st icon f = (icon, st))
    ∧ (∀ (st : IconCacheState) (icon : Icon) (f g : ℚ), f < 1 → g < 1 →
        quantKey f = quantKey g →
        apply_brightness (apply_brightness st icon f).2 icon g
          = apply_brightness st icon f)
    ∧ (∀ (st : IconCacheState) (icon : Icon) (f : ℚ),
        (st.cache.map Prod.fst).Nodup →
        ((apply_brightness st icon f).2.cache.map Prod.fst).Nodup) := by
  refine ⟨?_, ?_, ?_⟩
  · intro st icon f h
    rw [apply_brightness, if_pos h]
  · intro st icon f g hf hg hk
    have hf1 : ¬ 1 ≤ f := not_le.mpr hf
    have hg1 : ¬ 1 ≤ g := not_le.mpr hg
    cases hl : st.cache.lookup (quantKey f) with
    | some cached =>
        have h1 : apply_brightness st icon f = (cached, st) := by
          rw [apply_brightness, if_neg hf1]
          simp only [hl]
        rw [h1, apply_brightness, if_neg hg1, ← hk]
        simp [hl]
    | none =>
        have h1 : apply_brightness st icon f =
            (Icon.rendered st.nextId (alphaOf f),
             { cache := (quantKey f, Icon.rendered st.nextId (alphaOf f)) :: st.cache,
               nextId := st.nextId + 1 }) := by
          rw [apply_brightness, if_neg hf1]
          simp only [hl]
        rw [h1, apply_brightness, if_neg hg1, ← hk]
        simp [List.lookup]
  · intro st icon f h
    by_cases h1 : 1 ≤ f
    · rw [apply_brightness, if_pos h1]
      exact h
    · rw [apply_brightness, if_neg h1]
      cases hl : st.cache.lookup (quantKey f) with
      | some cached =>
          simp only [hl]
          simpa using h
      | none =>
          simp only [hl, List.map_cons, List.nodup_cons]
          exact ⟨lookup_none_not_mem_keys st.cache _ hl, h⟩

/-- Claim C9 witness: base icon returned at factor 1; a repeated factor
0.5 call hits the cache; the one-entry-per-key invariant after a first
insertion into the empty cache. -/
theorem c9_apply_brightness_cache_witness :
    apply_brightness { cache := [], nextId := 0 } Icon.base 1
        = (Icon.base, { cache := [], nextId := 0 })
    ∧ apply_brightness
        (apply_brightness { cache := [], nextId := 0 } Icon.base (1 / 2)).2
        Icon.base (1 / 2)
        = apply_brightness { cache := [], nextId := 0 } Icon.base (1 / 2)
    ∧ ((apply_brightness { cache := [], nextId := 0 } Icon.base (1 / 2)).2.cache.map
        Prod.fst).Nodup :=
  ⟨c9_apply_brightness_cache.1 _ Icon.base 1 le_rfl,
   c9_apply_brightness_cache.2.1 _ Icon.base (1 / 2) (1 / 2)
     (by norm_num) (by norm_num) rfl,
   c9_apply_brightness_cache.2.2 _ Icon.base (1 / 2) (by simp)⟩
